import Mathlib

/-!
Verification of the barber-bot multi-tenant WhatsApp session manager.

The Lean definitions below are a shallow embedding of the TypeScript source:

* `src/server.ts` — the multi-tenant server (registry `sessions`, pairing
  cache `qrCodes`, `startSession`, the `connection.update` and
  `messages.upsert` handlers, and the HTTP routes).
* `src/unnamed/part_000` — two concatenated earlier variants; the second one
  (the "inspector" variant) adds sender normalization (`@lid` handling) and
  drops webhook payloads with no extractable text.
* `src/unnamed/part_001` — a variant whose reset wraps transport termination
  in try/catch, whose logged-out close erases the credential folder, and whose
  send-text route has no connected-check.

JavaScript `Map`s become association lists, the per-tenant socket objects
become `SockRec` records with a unique `sockId` (the "transport handle"
identity), the filesystem credential folders (`auth_info_baileys/<id>`)
become the `authDirs` list, and the possibly-failing external calls
(`axios.post`, `sock.logout()`, `sock.end()`, `sock.sendMessage`) take an
explicit success/failure argument.  Each handler and route is a
state-transition function run to completion, except `startSession`, which
is additionally split at its `await useMultiFileAuthState` suspension point
into `startBegin`/`startFinish` over `ServerStateC`, so that the event
loop's interleavings of concurrent start requests — the source's
check-then-act race — are expressible.
-/

namespace BarberBot

/-- JavaScript truthiness of a possibly-absent string (`undefined`, `null`
and `""` are falsy). -/
def jsTruthy : Option String → Bool
  | none => false
  | some s => s != ""

/-- JavaScript `a || b` on possibly-absent strings. -/
def jsOr (a b : Option String) : Option String :=
  if jsTruthy a then a else b

/-- `s.split(c)[0]`: the part of `s` before the first occurrence of `c`
(the whole string when `c` does not occur). -/
def takeUntilCh : List Char → Char → List Char
  | [], _ => []
  | c :: rest, stop => if c = stop then [] else c :: takeUntilCh rest stop

def splitHead (s : String) (c : Char) : String :=
  ⟨takeUntilCh s.data c⟩

/-- `needle` is a leading segment of `hay` (character lists). -/
def chPre : List Char → List Char → Bool
  | [], _ => true
  | _ :: _, [] => false
  | a :: as, b :: bs => a = b && chPre as bs

/-- `hay.includes(needle)`: substring containment on character lists. -/
def chSub (needle : List Char) : List Char → Bool
  | [] => chPre needle []
  | hay@(_ :: rest) => chPre needle hay || chSub needle rest

/-- `remoteJid.includes('@lid')` from the part_000 inspector variant. -/
def hasLid (jid : String) : Bool :=
  chSub "@lid".data jid.data

/-! ## Association lists: the JavaScript `Map`s `sessions` and `qrCodes` -/

/-- A JavaScript `Map` with string keys, as an association list. -/
abbrev AList (α : Type) := List (String × α)

/-- `map.get(k)` (also `map.has(k)` via `isSome`). -/
def aget {α : Type} : AList α → String → Option α
  | [], _ => none
  | (k, v) :: rest, q => if q = k then some v else aget rest q

/-- `map.delete(k)`. -/
def adel {α : Type} : AList α → String → AList α
  | [], _ => []
  | (k, v) :: rest, q => if k = q then adel rest q else (k, v) :: adel rest q

/-- `map.set(k, v)`. -/
def aset {α : Type} (l : AList α) (k : String) (v : α) : AList α :=
  (k, v) :: adel l k

/-! ## Sockets and server state -/

/-- One transport handle (a Baileys socket).  `sockId` identifies the handle,
`user` is `sock.user` (the resolved identity, present once connected),
`destroyed` models `sock.destroyed` / `sock.ws.isClosed` (the liveness checks
used by the `startSession` guards). -/
structure SockRec where
  sockId : Nat
  tenant : String
  user : Option String
  destroyed : Bool
deriving DecidableEq, Repr

/-- Find the socket record with a given id. -/
def findSock : List SockRec → Nat → Option SockRec
  | [], _ => none
  | r :: rest, n => if r.sockId = n then some r else findSock rest n

/-- Update (in place) the socket record with id `n`. -/
def updSock (f : SockRec → SockRec) (n : Nat) (l : List SockRec) : List SockRec :=
  l.map (fun r => if r.sockId = n then f r else r)

/-- The whole server state: the `sessions` registry and `qrCodes` pairing
cache of `src/server.ts`, the credential folders under `auth_info_baileys/`
(`authDirs`), and the pool of every socket ever created (`socks`, with
`nextSockId` the next fresh handle id). The registry stores handle ids;
`aget sessions id` models `sessions.get(id)`. -/
structure ServerState where
  sessions : AList Nat
  qrCodes : AList String
  authDirs : List String
  socks : List SockRec
  nextSockId : Nat
deriving DecidableEq, Repr

def initState : ServerState :=
  { sessions := [], qrCodes := [], authDirs := [], socks := [], nextSockId := 0 }

/-- `fs.mkdirSync(sessionPath)` when the folder does not exist yet. -/
def mkDirIfMissing (dirs : List String) (id : String) : List String :=
  if id ∈ dirs then dirs else id :: dirs

/-- `sock.user`, looked up through the handle id. -/
def sockUser (st : ServerState) (n : Nat) : Option String :=
  (findSock st.socks n).bind (fun r => r.user)

/-- `!sessions.get(id).destroyed` for a handle id in the registry. -/
def sockLive (st : ServerState) (n : Nat) : Bool :=
  match findSock st.socks n with
  | some r => !r.destroyed
  | none => false

/-- `sessions.has(id) && !sessions.get(id).destroyed`, the guard at the top
of `startSession` (`src/server.ts` line 25; `!ws.isClosed` in the variants). -/
def registryLive (st : ServerState) (id : String) : Bool :=
  match aget st.sessions id with
  | some n => sockLive st n
  | none => false

/-- The `else` path of `startSession`: create the credentials folder if
missing, `makeWASocket(...)`, and `sessions.set(instanceId, sock)`
(`src/server.ts` lines 29-54).  Returns the new state and the handle id. -/
def startFresh (st : ServerState) (id : String) : ServerState × Nat :=
  ({ sessions := aset st.sessions id st.nextSockId
     qrCodes := st.qrCodes
     authDirs := mkDirIfMissing st.authDirs id
     socks := ⟨st.nextSockId, id, none, false⟩ :: st.socks
     nextSockId := st.nextSockId + 1 }, st.nextSockId)

/-- `startSession(instanceId)` (`src/server.ts` lines 23-110): if a live
session is registered, return it unchanged; otherwise create and register a
fresh socket. -/
def startSession (st : ServerState) (id : String) : ServerState × Nat :=
  match aget st.sessions id with
  | some n => if sockLive st n then (st, n) else startFresh st id
  | none => startFresh st id

/-! ## `connection.update` handlers -/

/-- The `if (qr)` branch: `qrCodes.set(instanceId, qr)`
(`src/server.ts` lines 61-64). -/
def handleQr (st : ServerState) (id payload : String) : ServerState :=
  { st with qrCodes := aset st.qrCodes id payload }

/-- The `connection === 'open'` branch: the transport records `sock.user`
and the handler runs `qrCodes.delete(instanceId)` (`src/server.ts`
lines 78-81). -/
def handleOpen (st : ServerState) (id : String) (n : Nat) (ident : String) :
    ServerState :=
  { st with
    socks := updSock (fun r => { r with user := some ident }) n st.socks
    qrCodes := adel st.qrCodes id }

/-- The underlying socket is closed (its `destroyed` / `ws.isClosed` flag is
set); this happens exactly when a `connection === 'close'` update fires, and
also when `sock.end` / `sock.logout` succeed. -/
def markClosed (st : ServerState) (n : Nat) : ServerState :=
  { st with socks := updSock (fun r => { r with destroyed := true }) n st.socks }

/-- The `connection === 'close'` branch of `src/server.ts` (lines 66-77):
if the reason is not `DisconnectReason.loggedOut`, call `startSession`
again; otherwise delete the registry and pairing-cache entries.  The
credential folder is NOT removed in `src/server.ts` (the deletion is only a
comment, line 76). -/
def handleClose (st : ServerState) (id : String) (n : Nat) (loggedOut : Bool) :
    ServerState :=
  let st1 := markClosed st n
  if loggedOut then
    { st1 with sessions := adel st1.sessions id, qrCodes := adel st1.qrCodes id }
  else (startSession st1 id).1

/-- The `connection === 'close'` branch of `src/unnamed/part_001`
(lines 68-80): same as `src/server.ts` except that on `loggedOut` the
credential folder is erased (`fs.rmSync(sessionPath, ...)`), and the
transient-close `startSession` is re-invoked from a 3 s timer (modelled as
running to completion). -/
def handleCloseP001 (st : ServerState) (id : String) (n : Nat)
    (loggedOut : Bool) : ServerState :=
  let st1 := markClosed st n
  if loggedOut then
    { st1 with
      sessions := adel st1.sessions id
      qrCodes := adel st1.qrCodes id
      authDirs := st1.authDirs.filter (fun d => decide (d ≠ id)) }
  else (startSession st1 id).1

/-! ## HTTP routes -/

/-- `POST /v1/instance/logout` (`src/server.ts` lines 218-233).
`logoutOk` says whether `await sock.logout()` succeeds.  The call is NOT
wrapped in try/catch: when it rejects, the handler aborts (second component
`true`) and none of the cleanup lines run.  When it succeeds, the transport
is closed and the registry entry, pairing-cache entry and credential folder
are all removed. -/
def logoutServerTs (st : ServerState) (id : String) (logoutOk : Bool) :
    ServerState × Bool :=
  if id = "" then (st, false)
  else
    match aget st.sessions id with
    | none => (st, false)
    | some n =>
      if logoutOk then
        let st1 := markClosed st n
        ({ st1 with
           sessions := adel st1.sessions id
           qrCodes := adel st1.qrCodes id
           authDirs := st1.authDirs.filter (fun d => decide (d ≠ id)) }, false)
      else (st, true)

/-- Outcome of a reset request: `badRequest` is the 400 for a missing
tenant id, `okReset` the success JSON, `aborted` means the handler threw
before responding. -/
inductive ResetResult
  | badRequest
  | okReset
  | aborted
deriving DecidableEq, Repr

/-- `POST /v1/instance/reset` (`src/server.ts` lines 236-264).  `endOk` says
whether `sock.end(undefined)` returns normally; in `src/server.ts` this call
is NOT wrapped in try/catch, so a throwing termination aborts the handler
before any cleanup.  The `fs.rmSync` IS wrapped in try/catch. -/
def resetServerTs (st : ServerState) (target : Option String) (endOk : Bool) :
    ServerState × ResetResult :=
  match target with
  | none => (st, .badRequest)
  | some id =>
    if id = "" then (st, .badRequest)
    else
      match aget st.sessions id with
      | some n =>
        if endOk then
          let st1 := markClosed st n
          ({ st1 with
             sessions := adel st1.sessions id
             qrCodes := adel st1.qrCodes id
             authDirs := st1.authDirs.filter (fun d => decide (d ≠ id)) },
           .okReset)
        else (st, .aborted)
      | none =>
        ({ st with authDirs := st.authDirs.filter (fun d => decide (d ≠ id)) },
         .okReset)

/-- `GET /v1/instance/reset` of `src/unnamed/part_001` (lines 179-193).
Here `sessions.get(instanceId).end(undefined)` is wrapped in
`try { ... } catch(e){}`, so cleanup proceeds whether or not termination
throws (when it throws, the socket is not marked closed). -/
def resetP001 (st : ServerState) (target : Option String) (endOk : Bool) :
    ServerState × ResetResult :=
  match target with
  | none => (st, .badRequest)
  | some id =>
    if id = "" then (st, .badRequest)
    else
      let st1 :=
        match aget st.sessions id with
        | some n =>
          let st' := if endOk then markClosed st n else st
          { st' with
            sessions := adel st'.sessions id
            qrCodes := adel st'.qrCodes id }
        | none => st
      ({ st1 with authDirs := st1.authDirs.filter (fun d => decide (d ≠ id)) },
       .okReset)

/-- Outcome of a send-text request: 404, 503, 200 (with the jid the message
was sent to) or 500. -/
inductive SendResult
  | notFound
  | notConnected
  | sent (jid : String)
  | sendError
deriving DecidableEq, Repr

/-- `phone.replace(/\D/g, '')`. -/
def digitsOnly (s : String) : String :=
  ⟨s.data.filter (fun c => c.isDigit)⟩

/-- The jid `${phone.replace(/\D/g, '')}@s.whatsapp.net`. -/
def mkJid (phone : String) : String :=
  digitsOnly phone ++ "@s.whatsapp.net"

/-- `POST /v1/message/send-text` (`src/server.ts` lines 168-200): 404 when
the target id is falsy or not in the registry, 503 when `!sock.user`, and
only then `sock.sendMessage` (whose success is `sendOk`).  The second
component records whether the transport send command was invoked. -/
def sendTextServerTs (st : ServerState) (target : Option String)
    (phone : String) (sendOk : Bool) : SendResult × Bool :=
  match target with
  | none => (.notFound, false)
  | some t =>
    if t = "" then (.notFound, false)
    else
      match aget st.sessions t with
      | none => (.notFound, false)
      | some n =>
        match sockUser st n with
        | none => (.notConnected, false)
        | some _ =>
          if sendOk then (.sent (mkJid phone), true) else (.sendError, true)

/-- `POST /v1/message/send-text` of `src/unnamed/part_001` (lines 160-176):
404 when the target id is falsy or not registered, but NO connected-check —
`sock.sendMessage` is invoked for any registered session. -/
def sendTextP001 (st : ServerState) (target : Option String)
    (phone : String) (sendOk : Bool) : SendResult × Bool :=
  match target with
  | none => (.notFound, false)
  | some t =>
    if t = "" then (.notFound, false)
    else
      match aget st.sessions t with
      | none => (.notFound, false)
      | some _ =>
        if sendOk then (.sent (mkJid phone), true) else (.sendError, true)

/-! ## Inbound messages and the webhook dispatchers (`messages.upsert`) -/

/-- `msg.key`. -/
structure MsgKey where
  fromMe : Bool
  remoteJid : String
  participant : Option String
  msgId : String
deriving DecidableEq, Repr

/-- The text-carrying parts of `msg.message`. -/
structure MsgBody where
  conversation : Option String
  extendedText : Option String
deriving DecidableEq, Repr

/-- One inbound message event. -/
structure WaMessage where
  key : MsgKey
  message : Option MsgBody
deriving DecidableEq, Repr

/-- `msg.message?.conversation || msg.message?.extendedTextMessage?.text`. -/
def msgContent (m : WaMessage) : Option String :=
  jsOr (m.message.bind (fun b => b.conversation))
    (m.message.bind (fun b => b.extendedText))

/-- Sender normalization of the part_000 inspector variant (lines 270-280):
start from `remoteJid.split('@')[0]`; when `remoteJid.includes('@lid')` and
`participant` is truthy, use `participant.split('@')[0]` instead. -/
def normalizedSender (k : MsgKey) : String :=
  if hasLid k.remoteJid && jsTruthy k.participant then
    splitHead (k.participant.getD "") '@'
  else splitHead k.remoteJid '@'

/-- The claim's description of the sender identity, written from its own
words: the co-located participant identifier (its part before the first
`'@'`) when the primary sender address is an anonymized `@lid` form and a
participant identifier is present (a missing or empty field is not a present
identifier), the primary address's part before `'@'` otherwise. -/
def senderSpec (k : MsgKey) : String :=
  match k.participant with
  | some p =>
    if hasLid k.remoteJid && p != "" then splitHead p '@'
    else splitHead k.remoteJid '@'
  | none => splitHead k.remoteJid '@'

/-- One webhook POST as observed by the external endpoint: which instance,
which sender field (absent for the part_001 payload, which has no sender),
and the `msgContent` field. -/
structure WebhookCall where
  instanceId : String
  sender : Option String
  content : Option String
deriving DecidableEq, Repr

/-- `!msg.key.fromMe && WEBHOOK_URL`, the dispatch guard common to all three
variants. -/
def eligMsg (wurl : Option String) (m : WaMessage) : Bool :=
  !m.key.fromMe && jsTruthy wurl

/-- `await axios.post(WEBHOOK_URL, payload)`: succeeds or throws. -/
def postAttempt (ok : Bool) : Except String Unit :=
  if ok then .ok () else .error "webhook delivery failure"

/-- The `try { ... } catch (e) { ... }` around the POST: any delivery error
is logged and swallowed. -/
def catchAll (r : Except String Unit) : Except String Unit :=
  match r with
  | .ok _ => .ok ()
  | .error _ => .ok ()

/-- The webhook payload built by `src/server.ts` (lines 89-96):
`sender` is `msg.key.remoteJid.split('@')[0]`, `msgContent` may be absent. -/
def callServerTs (iid : String) (m : WaMessage) : WebhookCall :=
  ⟨iid, some (splitHead m.key.remoteJid '@'), msgContent m⟩

/-- The payload of the part_000 inspector variant (lines 283-290):
normalized sender. -/
def callP000 (iid : String) (m : WaMessage) : WebhookCall :=
  ⟨iid, some (normalizedSender m.key), msgContent m⟩

/-- The payload of `src/unnamed/part_001` (lines 93-98): no sender field. -/
def callP001 (iid : String) (m : WaMessage) : WebhookCall :=
  ⟨iid, none, msgContent m⟩

/-- The message loop of the `messages.upsert` handler in `src/server.ts`
(lines 85-107).  `ok i` is the outcome of the `i`-th POST; the `.error`
branches are where an uncaught throw would abort the loop — the catch makes
them unreachable.  Returns the list of POSTs made, in order. -/
def upsertServerTs (wurl : Option String) (iid : String) (ok : Nat → Bool) :
    List WaMessage → Nat → Except String (List WebhookCall)
  | [], _ => .ok []
  | m :: rest, i =>
    if eligMsg wurl m then
      match catchAll (postAttempt (ok i)) with
      | .error e => .error e
      | .ok _ =>
        match upsertServerTs wurl iid ok rest (i + 1) with
        | .error e => .error e
        | .ok cs => .ok (callServerTs iid m :: cs)
    else upsertServerTs wurl iid ok rest (i + 1)

/-- The message loop of the part_000 inspector variant (lines 262-305):
same structure, but `if (!payload.msgContent) continue;` drops the event
before the POST when no text could be extracted. -/
def upsertP000 (wurl : Option String) (iid : String) (ok : Nat → Bool) :
    List WaMessage → Nat → Except String (List WebhookCall)
  | [], _ => .ok []
  | m :: rest, i =>
    if eligMsg wurl m then
      if !jsTruthy (callP000 iid m).content then upsertP000 wurl iid ok rest (i + 1)
      else
        match catchAll (postAttempt (ok i)) with
        | .error e => .error e
        | .ok _ =>
          match upsertP000 wurl iid ok rest (i + 1) with
          | .error e => .error e
          | .ok cs => .ok (callP000 iid m :: cs)
    else upsertP000 wurl iid ok rest (i + 1)

/-- The message loop of `src/unnamed/part_001` (lines 88-105): like
`src/server.ts`, with a silent catch and a payload without sender. -/
def upsertP001 (wurl : Option String) (iid : String) (ok : Nat → Bool) :
    List WaMessage → Nat → Except String (List WebhookCall)
  | [], _ => .ok []
  | m :: rest, i =>
    if eligMsg wurl m then
      match catchAll (postAttempt (ok i)) with
      | .error e => .error e
      | .ok _ =>
        match upsertP001 wurl iid ok rest (i + 1) with
        | .error e => .error e
        | .ok cs => .ok (callP001 iid m :: cs)
    else upsertP001 wurl iid ok rest (i + 1)

/-- The full `messages.upsert` handler of `src/server.ts`, including the
`type === 'notify'` guard. -/
def handleUpsertServerTs (wurl : Option String) (iid evType : String)
    (msgs : List WaMessage) (ok : Nat → Bool) :
    Except String (List WebhookCall) :=
  if evType = "notify" then upsertServerTs wurl iid ok msgs 0 else .ok []

/-- The full `messages.upsert` handler of the part_000 inspector variant. -/
def handleUpsertP000 (wurl : Option String) (iid evType : String)
    (msgs : List WaMessage) (ok : Nat → Bool) :
    Except String (List WebhookCall) :=
  if evType = "notify" then upsertP000 wurl iid ok msgs 0 else .ok []

/-- The full `messages.upsert` handler of `src/unnamed/part_001`. -/
def handleUpsertP001 (wurl : Option String) (iid evType : String)
    (msgs : List WaMessage) (ok : Nat → Bool) :
    Except String (List WebhookCall) :=
  if evType = "notify" then upsertP001 wurl iid ok msgs 0 else .ok []

/-- The POSTs `src/server.ts` attempts: one per eligible message, whatever
the delivery outcomes. -/
def attemptedServerTs (wurl : Option String) (iid : String)
    (msgs : List WaMessage) : List WebhookCall :=
  (msgs.filter (eligMsg wurl)).map (callServerTs iid)

/-- The POSTs the part_000 inspector variant attempts: eligible messages
with a truthy extracted text. -/
def attemptedP000 (wurl : Option String) (iid : String)
    (msgs : List WaMessage) : List WebhookCall :=
  (msgs.filter (fun m => eligMsg wurl m && jsTruthy (msgContent m))).map
    (callP000 iid)

/-- The POSTs `src/unnamed/part_001` attempts. -/
def attemptedP001 (wurl : Option String) (iid : String)
    (msgs : List WaMessage) : List WebhookCall :=
  (msgs.filter (eligMsg wurl)).map (callP001 iid)

/-! ## Concrete states and messages used as witnesses and counterexamples -/

/-- The state after booting and starting a session for tenant `"b1"`:
one live socket (id 0), not yet connected, credentials folder created. -/
def stA : ServerState := (startSession initState "b1").1

/-- `stA` after the connected (`open`) event fired for `"b1"`. -/
def stB : ServerState := handleOpen stA "b1" 0 "77:0@s.whatsapp.net"

/-- A message sent by the connected account itself. -/
def mFromMe : WaMessage := ⟨⟨true, "5@s", none, "k1"⟩, some ⟨some "oi", none⟩⟩

/-- An inbound message with no extractable text body. -/
def msgNoText : WaMessage := ⟨⟨false, "5@s", none, "k2"⟩, none⟩

/-- An eligible inbound message carrying a plain conversation text. -/
def msgText : WaMessage := ⟨⟨false, "5@s", none, "k3"⟩, some ⟨some "oi", none⟩⟩

/-- A delivery oracle under which every webhook POST succeeds. -/
def okAll : Nat → Bool := fun _ => true

/-! ## The concurrent-start race of `startSession`

`startSession` is not atomic: between the registry guard
(`src/server.ts` line 25) and `sessions.set` (line 54) it suspends at
`await useMultiFileAuthState(sessionPath)` (line 36).  Node's event loop
can therefore interleave two start requests for the same tenant so that
both pass the guard before either registers a socket.  `ServerStateC`
extends the server state with the multiset of start continuations
currently suspended at that await; `startBegin` is the synchronous prefix
of `startSession` (guard + mkdir + suspension), `startFinish` the
continuation after the await (`makeWASocket` + `sessions.set`), which
re-checks nothing. -/

structure ServerStateC where
  base : ServerState
  pending : List String
deriving DecidableEq, Repr

def initStateC : ServerStateC := ⟨initState, []⟩

/-- Remove one occurrence of a tenant id (one continuation resumes). -/
def removeOne : List String → String → List String
  | [], _ => []
  | x :: rest, id => if x = id then rest else x :: removeOne rest id

/-- The synchronous prefix of `startSession` (`src/server.ts` lines 23-36):
the registry guard, the mkdir, then suspension at the await.  A call for a
tenant with a live registered session returns the existing session without
suspending anything; every other call leaves a pending continuation. -/
def startBegin (st : ServerStateC) (id : String) : ServerStateC :=
  if registryLive st.base id then st
  else
    { base := { st.base with authDirs := mkDirIfMissing st.base.authDirs id }
      pending := id :: st.pending }

/-- The continuation of `startSession` after the await (`src/server.ts`
lines 38-109): `makeWASocket(...)`, `sessions.set(instanceId, sock)` and
handler registration, with no re-check of the guard.  Resumes one pending
continuation for the tenant. -/
def startFinish (st : ServerStateC) (id : String) : ServerStateC :=
  { base :=
    { sessions := aset st.base.sessions id st.base.nextSockId
      qrCodes := st.base.qrCodes
      authDirs := st.base.authDirs
      socks := ⟨st.base.nextSockId, id, none, false⟩ :: st.base.socks
      nextSockId := st.base.nextSockId + 1 }
    pending := removeOne st.pending id }

/-- The race interleaving: two concurrent first start requests for `"b1"`
both pass the guard (two continuations suspend at the await), then both
continuations run.  Socket 0 is created and registered first; the second
`sessions.set` replaces it with socket 1, orphaning socket 0, which stays
live with its event handlers attached. -/
def stRace : ServerStateC :=
  startFinish (startFinish (startBegin (startBegin initStateC "b1") "b1") "b1") "b1"

/-- Continuing `stRace`: the registered socket 1 connects (its `open`
update records the identity and clears the pairing cache), then the
orphaned, still-unauthenticated socket 0 emits a pairing QR, which its
`connection.update` handler caches under `"b1"`. -/
def stLeak : ServerState :=
  handleQr (handleOpen stRace.base "b1" 1 "77:0@s.whatsapp.net") "b1" "QR2"

/-! ### Association-list lemmas -/

theorem aget_adel {α : Type} (l : AList α) (k q : String) :
    aget (adel l k) q = if q = k then none else aget l q := by
  induction l with
  | nil => by_cases h : q = k <;> simp [adel, aget, h]
  | cons p rest ih =>
    obtain ⟨pk, pv⟩ := p
    by_cases h1 : pk = k <;> by_cases h2 : q = k <;> by_cases h3 : q = pk <;>
      simp_all [adel, aget]

theorem aget_aset {α : Type} (l : AList α) (k : String) (v : α) (q : String) :
    aget (aset l k v) q = if q = k then some v else aget l q := by
  by_cases h : q = k <;> simp [aset, aget, aget_adel, h]

/-! ### Socket-pool lemmas -/

theorem findSock_updSock (f : SockRec → SockRec) (n : Nat) (l : List SockRec)
    (hf : ∀ r, (f r).sockId = r.sockId) (m : Nat) :
    findSock (updSock f n l) m =
      if n = m then (findSock l m).map f else findSock l m := by
  induction l with
  | nil => by_cases h : n = m <;> simp [updSock, findSock, h]
  | cons a rest ih =>
    by_cases han : a.sockId = n <;> by_cases ham : a.sockId = m <;>
      by_cases hnm : n = m <;>
      simp_all [updSock, findSock, hf]

/-! ### Webhook dispatch lemmas -/

theorem catchPost (b : Bool) : catchAll (postAttempt b) = Except.ok () := by
  cases b <;> rfl

theorem upsertServerTs_eq (wurl : Option String) (iid : String)
    (ok : Nat → Bool) (msgs : List WaMessage) (i : Nat) :
    upsertServerTs wurl iid ok msgs i
      = Except.ok (attemptedServerTs wurl iid msgs) := by
  induction msgs generalizing i with
  | nil => rfl
  | cons m rest ih =>
    cases he : eligMsg wurl m with
    | true => simp [upsertServerTs, he, catchPost, ih (i + 1), attemptedServerTs]
    | false => simp [upsertServerTs, he, ih (i + 1), attemptedServerTs]

theorem upsertP001_eq (wurl : Option String) (iid : String)
    (ok : Nat → Bool) (msgs : List WaMessage) (i : Nat) :
    upsertP001 wurl iid ok msgs i
      = Except.ok (attemptedP001 wurl iid msgs) := by
  induction msgs generalizing i with
  | nil => rfl
  | cons m rest ih =>
    cases he : eligMsg wurl m with
    | true => simp [upsertP001, he, catchPost, ih (i + 1), attemptedP001]
    | false => simp [upsertP001, he, ih (i + 1), attemptedP001]

theorem upsertP000_eq (wurl : Option String) (iid : String)
    (ok : Nat → Bool) (msgs : List WaMessage) (i : Nat) :
    upsertP000 wurl iid ok msgs i
      = Except.ok (attemptedP000 wurl iid msgs) := by
  induction msgs generalizing i with
  | nil => rfl
  | cons m rest ih =>
    cases he : eligMsg wurl m with
    | false => simp [upsertP000, he, ih (i + 1), attemptedP000]
    | true =>
      cases hc : jsTruthy (msgContent m) with
      | false => simp [upsertP000, he, hc, callP000, ih (i + 1), attemptedP000]
      | true =>
        simp [upsertP000, he, hc, callP000, catchPost, ih (i + 1), attemptedP000]

theorem mem_attemptedP000 {wurl : Option String} {iid : String}
    {msgs : List WaMessage} {c : WebhookCall}
    (h : c ∈ attemptedP000 wurl iid msgs) : jsTruthy c.content = true := by
  unfold attemptedP000 at h
  obtain ⟨m, hm, hmc⟩ := List.mem_map.mp h
  have := List.of_mem_filter hm
  simp only [Bool.and_eq_true] at this
  rw [← hmc]
  exact this.2

theorem normalizedSender_eq (k : MsgKey) : normalizedSender k = senderSpec k := by
  cases hp : k.participant with
  | none => simp [normalizedSender, senderSpec, hp, jsTruthy]
  | some p =>
    by_cases hc : (hasLid k.remoteJid && p != "") = true <;>
      simp_all [normalizedSender, senderSpec, hp, jsTruthy]

theorem map_sender_attempted (iid : String) (l : List WaMessage) :
    (l.map (callP000 iid)).map (fun c => c.sender)
      = l.map (fun m => some (senderSpec m.key)) := by
  induction l with
  | nil => rfl
  | cons m rest ih => simp [callP000, ih, normalizedSender_eq]

theorem not_mem_filterNe (l : List String) (id : String) :
    id ∉ l.filter (fun d => decide (d ≠ id)) := by
  simp [List.mem_filter]

/-! ## The claims -/

/-- C1 (code bug): the claimed invariant — at most one live transport
handle per tenant id at every point — is violated by `src/server.ts`.
`startSession` suspends at `await useMultiFileAuthState` between the
registry guard (line 25) and `sessions.set` (line 54) and never re-checks,
so two concurrent start requests for the not-yet-live tenant `"b1"` both
pass the guard (two continuations suspend) and both create live sockets:
in `stRace`, sockets 0 and 1 are both live with tenant `"b1"`, socket 1 is
registered and socket 0 is orphaned but live with its handlers attached —
two distinct live handles for one tenant, refuting the invariant.  The
guard does work for an already-live tenant: a further start request on
`stRace` is a no-op, so the race needs both requests to arrive before
either registers, which is exactly the check-then-act hazard the spec
forbids. -/
theorem c1_race_two_live_handles :
    (startBegin (startBegin initStateC "b1") "b1").pending = ["b1", "b1"] ∧
    stRace.pending = [] ∧
    ⟨0, "b1", none, false⟩ ∈ stRace.base.socks ∧
    ⟨1, "b1", none, false⟩ ∈ stRace.base.socks ∧
    aget stRace.base.sessions "b1" = some 1 ∧
    ¬ (∀ r1 ∈ stRace.base.socks, ∀ r2 ∈ stRace.base.socks,
        r1.destroyed = false → r2.destroyed = false →
        r1.tenant = r2.tenant → r1 = r2) ∧
    startBegin stRace "b1" = stRace := by
  refine ⟨rfl, rfl, ?_, ?_, rfl, ?_, rfl⟩ <;> decide

/-- C4 (code bug): the open handler does clear the pairing cache the
instant the connected event fires — the first conjunct shows the cache
empty for `"b1"` right after socket 1's `open` update — but the mutual
exclusion of pairing payload and resolved identity fails in
`src/server.ts`: the socket leaked by the concurrent-start race of
`stRace` is still live and unauthenticated (last conjunct), so it can emit
a pairing QR after the registered socket connected, and its
`connection.update` handler caches the payload (`qrCodes.set`, line 63).
In `stLeak`, tenant `"b1"` has both a cached pairing payload and a
resolved identity at the same time, refuting the claimed invariant. -/
theorem c4_race_payload_with_identity :
    aget (handleOpen stRace.base "b1" 1 "77:0@s.whatsapp.net").qrCodes "b1"
      = none ∧
    aget stLeak.qrCodes "b1" = some "QR2" ∧
    aget stLeak.sessions "b1" = some 1 ∧
    sockUser stLeak 1 = some "77:0@s.whatsapp.net" ∧
    findSock stLeak.socks 0 = some ⟨0, "b1", none, false⟩ := by
  refine ⟨rfl, rfl, rfl, rfl, rfl⟩

/-- C2 (counterexample): in `src/server.ts`, after an explicit-logout close
for tenant `"b1"` at the concrete state `stA`, the registry entry is gone —
the close was processed as a logout — yet the credential folder of `"b1"`
is still present (its deletion is only a comment, line 76), so the
tenant's credentials are NOT erased as the claim states. -/
theorem c2_counterexample :
    aget (handleClose stA "b1" 0 true).sessions "b1" = none ∧
    "b1" ∈ (handleClose stA "b1" 0 true).authDirs := by
  constructor
  · rfl
  · decide

/-- C2 (amended): on a transport-closed event whose reason is not explicit
logout, the handler re-invokes the start path — afterwards the tenant is
registered to a fresh live socket with no identity yet (back toward
Connecting) — and no credential folder is removed.  On an explicit-logout
close, the registry entry and the pairing-cache entry are removed in both
variants; the `src/unnamed/part_001` handler additionally erases the
tenant's credential folder, but the `src/server.ts` handler leaves the
credential folder on disk. -/
theorem c2_amended :
    (∀ (st : ServerState) (id : String) (n : Nat),
      aget st.sessions id = some n →
      aget (handleClose st id n false).sessions id = some st.nextSockId ∧
      findSock (handleClose st id n false).socks st.nextSockId
        = some ⟨st.nextSockId, id, none, false⟩ ∧
      ∀ d ∈ st.authDirs, d ∈ (handleClose st id n false).authDirs) ∧
    (∀ (st : ServerState) (id : String) (n : Nat),
      aget (handleClose st id n true).sessions id = none ∧
      aget (handleClose st id n true).qrCodes id = none ∧
      (handleClose st id n true).authDirs = st.authDirs) ∧
    (∀ (st : ServerState) (id : String) (n : Nat),
      aget (handleCloseP001 st id n true).sessions id = none ∧
      aget (handleCloseP001 st id n true).qrCodes id = none ∧
      id ∉ (handleCloseP001 st id n true).authDirs) := by
  refine ⟨?_, ?_, ?_⟩
  · intro st id n hA
    have hA' : aget (markClosed st n).sessions id = some n := hA
    have hsl : sockLive (markClosed st n) n = false := by
      unfold sockLive
      rw [show (markClosed st n).socks
          = updSock (fun r => { r with destroyed := true }) n st.socks from rfl,
        findSock_updSock (fun r => { r with destroyed := true }) n st.socks
          (fun _ => rfl) n,
        if_pos rfl]
      cases hfs : findSock st.socks n <;> rfl
    have hstart : handleClose st id n false = (startFresh (markClosed st n) id).1 := by
      show (startSession (markClosed st n) id).1 = _
      unfold startSession
      rw [hA']
      show (if sockLive (markClosed st n) n then (markClosed st n, n)
        else startFresh (markClosed st n) id).1 = _
      rw [hsl]
      rfl
    refine ⟨?_, ?_, ?_⟩
    · rw [hstart]
      show aget (aset (markClosed st n).sessions id st.nextSockId) id
        = some st.nextSockId
      rw [aget_aset, if_pos rfl]
    · rw [hstart]
      show findSock (⟨st.nextSockId, id, none, false⟩ :: (markClosed st n).socks)
        st.nextSockId = some ⟨st.nextSockId, id, none, false⟩
      simp [findSock]
    · intro d hd
      rw [hstart]
      show d ∈ mkDirIfMissing (markClosed st n).authDirs id
      unfold mkDirIfMissing
      by_cases hmem : id ∈ (markClosed st n).authDirs
      · rw [if_pos hmem]; exact hd
      · rw [if_neg hmem]; exact List.mem_cons_of_mem _ hd
  · intro st id n
    refine ⟨?_, ?_, rfl⟩
    · show aget (adel (markClosed st n).sessions id) id = none
      rw [aget_adel, if_pos rfl]
    · show aget (adel (markClosed st n).qrCodes id) id = none
      rw [aget_adel, if_pos rfl]
  · intro st id n
    refine ⟨?_, ?_, ?_⟩
    · show aget (adel (markClosed st n).sessions id) id = none
      rw [aget_adel, if_pos rfl]
    · show aget (adel (markClosed st n).qrCodes id) id = none
      rw [aget_adel, if_pos rfl]
    · exact not_mem_filterNe _ _

/-- Witness for C2 (amended) at the concrete state `stA`: a transient close
re-registers `"b1"` to the fresh socket 1, and a part_001 explicit-logout
close removes the registry entry. -/
theorem c2_witness :
    aget (handleClose stA "b1" 0 false).sessions "b1" = some 1 ∧
    aget (handleCloseP001 stA "b1" 0 true).sessions "b1" = none :=
  ⟨(c2_amended.1 stA "b1" 0 rfl).1, (c2_amended.2.2 stA "b1" 0).1⟩

/-- C3 (counterexample): at the concrete state `stA`, tenant `"b1"` is
registered but its session is not connected (`sock.user` is absent), yet
the send-text handler of `src/unnamed/part_001` invokes the transport send
command (second component `true`) and answers 200, not a 503-equivalent
not-connected failure. -/
theorem c3_counterexample :
    sockUser stA 0 = none ∧
    sendTextP001 stA (some "b1") "77" true
      = (SendResult.sent "77@s.whatsapp.net", true) := by
  constructor <;> rfl

/-- C3 (amended): the `src/server.ts` send-text handler behaves as the
claim states — 404-equivalent when the target id is missing/unknown,
503-equivalent without invoking the transport send when the session exists
but is not connected, and the transport send command is reached only when
the session is connected.  The `src/unnamed/part_001` handler returns the
404-equivalent for unknown tenants but has no connected-check: it invokes
the transport send for any registered session regardless of connection
state (a failure surfaces as a 500, never as a 503). -/
theorem c3_amended :
    (∀ (st : ServerState) (phone : String) (ok : Bool),
      sendTextServerTs st none phone ok = (SendResult.notFound, false)) ∧
    (∀ (st : ServerState) (t phone : String) (ok : Bool),
      aget st.sessions t = none →
      sendTextServerTs st (some t) phone ok = (SendResult.notFound, false)) ∧
    (∀ (st : ServerState) (t phone : String) (ok : Bool) (n : Nat),
      t ≠ "" → aget st.sessions t = some n → sockUser st n = none →
      sendTextServerTs st (some t) phone ok = (SendResult.notConnected, false)) ∧
    (∀ (st : ServerState) (tgt : Option String) (phone : String) (ok : Bool),
      (sendTextServerTs st tgt phone ok).2 = true →
      ∃ t n, tgt = some t ∧ aget st.sessions t = some n ∧
        (sockUser st n).isSome = true) ∧
    (∀ (st : ServerState) (t phone : String) (ok : Bool) (n : Nat),
      t ≠ "" → aget st.sessions t = some n →
      (sendTextP001 st (some t) phone ok).2 = true) := by
  refine ⟨?_, ?_, ?_, ?_, ?_⟩
  · intro st phone ok
    rfl
  · intro st t phone ok hA
    simp [sendTextServerTs, hA]
  · intro st t phone ok n ht hA hu
    simp [sendTextServerTs, ht, hA, hu]
  · intro st tgt phone ok h2
    cases tgt with
    | none => simp [sendTextServerTs] at h2
    | some t =>
      by_cases ht : t = ""
      · simp [sendTextServerTs, ht] at h2
      · cases hA : aget st.sessions t with
        | none => simp [sendTextServerTs, ht, hA] at h2
        | some n =>
          cases hu : sockUser st n with
          | none => simp [sendTextServerTs, ht, hA, hu] at h2
          | some u => exact ⟨t, n, rfl, hA, by rw [hu]; rfl⟩
  · intro st t phone ok n ht hA
    cases ok <;> simp [sendTextP001, ht, hA]

/-- Witness for C3 (amended) at concrete states: unknown tenant gives 404,
the unconnected `"b1"` at `stA` gives 503 without a send, the connected
`"b1"` at `stB` reaches the send, and part_001 invokes the send on the
unconnected `stA`. -/
theorem c3_witness :
    sendTextServerTs stA (some "zz") "77" true = (SendResult.notFound, false) ∧
    sendTextServerTs stA (some "b1") "77" true
      = (SendResult.notConnected, false) ∧
    (∃ t n, (some "b1" : Option String) = some t ∧
      aget stB.sessions t = some n ∧ (sockUser stB n).isSome = true) ∧
    (sendTextP001 stA (some "b1") "77" true).2 = true :=
  ⟨c3_amended.2.1 stA "zz" "77" true rfl,
   c3_amended.2.2.1 stA "b1" "77" true 0 (by decide) rfl rfl,
   c3_amended.2.2.2.1 stB (some "b1") "77" true rfl,
   c3_amended.2.2.2.2 stA "b1" "77" true 0 (by decide) rfl⟩

/-- C5 (counterexample): at the concrete state `stA`, a logout request for
the known tenant `"b1"` whose transport-level `sock.logout()` call fails
aborts the handler (`await` is not wrapped in try/catch): the registry
entry and the credential folder are both still present — local cleanup did
NOT proceed. -/
theorem c5_counterexample :
    (logoutServerTs stA "b1" false).2 = true ∧
    aget (logoutServerTs stA "b1" false).1.sessions "b1" = some 0 ∧
    "b1" ∈ (logoutServerTs stA "b1" false).1.authDirs := by
  refine ⟨rfl, rfl, ?_⟩
  decide

/-- C5 (amended): for a known tenant, local cleanup (registry entry
removed, pairing-cache entry removed, credential folder erased) happens
exactly when the transport-level logout call succeeds; when
`await sock.logout()` throws, the `src/server.ts` handler aborts before any
cleanup line runs, leaving registry, cache and credentials untouched —
cleanup IS conditional on transport acknowledgement. -/
theorem c5_amended :
    (∀ (st : ServerState) (id : String) (n : Nat),
      id ≠ "" → aget st.sessions id = some n →
      logoutServerTs st id false = (st, true)) ∧
    (∀ (st : ServerState) (id : String) (n : Nat),
      id ≠ "" → aget st.sessions id = some n →
      (logoutServerTs st id true).2 = false ∧
      aget (logoutServerTs st id true).1.sessions id = none ∧
      aget (logoutServerTs st id true).1.qrCodes id = none ∧
      id ∉ (logoutServerTs st id true).1.authDirs) := by
  constructor
  · intro st id n hid hA
    simp [logoutServerTs, hid, hA]
  · intro st id n hid hA
    refine ⟨?_, ?_, ?_, ?_⟩ <;>
      simp [logoutServerTs, hid, hA, aget_adel, not_mem_filterNe]

/-- Witness for C5 (amended) at the concrete state `stA`. -/
theorem c5_witness :
    logoutServerTs stA "b1" false = (stA, true) ∧
    aget (logoutServerTs stA "b1" true).1.sessions "b1" = none :=
  ⟨c5_amended.1 stA "b1" 0 (by decide) rfl,
   (c5_amended.2 stA "b1" 0 (by decide) rfl).2.1⟩

/-- C6 (counterexample): at the concrete state `stA`, a reset request for
`"b1"` whose `sock.end(undefined)` call throws aborts the `src/server.ts`
handler (the call is not inside try/catch): no success is reported and the
registry entry is still there — the error is not swallowed and a trace
remains. -/
theorem c6_counterexample :
    (resetServerTs stA (some "b1") false).2 = ResetResult.aborted ∧
    aget (resetServerTs stA (some "b1") false).1.sessions "b1" = some 0 := by
  constructor <;> rfl

/-- C6 (amended): the reset of `src/unnamed/part_001` matches the claim for
every tenant id — it reports success, swallows a throwing transport
termination, removes the registry and pairing-cache entries of a registered
tenant, leaves registry and cache untouched for an unknown tenant (so a
never-seen id leaves no trace), and erases the credential folder.  The
`src/server.ts` reset does the same whenever `sock.end` does not throw
(including ids never seen before, for which no termination is attempted),
but its `sock.end` call is not wrapped in try/catch, so a throwing
termination aborts the handler before cleanup and response (see the
counterexample). -/
theorem c6_amended :
    (∀ (st : ServerState) (id : String) (n : Nat) (endOk : Bool), id ≠ "" →
      aget st.sessions id = some n →
      (resetP001 st (some id) endOk).2 = ResetResult.okReset ∧
      aget (resetP001 st (some id) endOk).1.sessions id = none ∧
      aget (resetP001 st (some id) endOk).1.qrCodes id = none ∧
      id ∉ (resetP001 st (some id) endOk).1.authDirs) ∧
    (∀ (st : ServerState) (id : String) (endOk : Bool), id ≠ "" →
      aget st.sessions id = none →
      (resetP001 st (some id) endOk).2 = ResetResult.okReset ∧
      (resetP001 st (some id) endOk).1.sessions = st.sessions ∧
      (resetP001 st (some id) endOk).1.qrCodes = st.qrCodes ∧
      id ∉ (resetP001 st (some id) endOk).1.authDirs) ∧
    (∀ (st : ServerState) (id : String) (n : Nat), id ≠ "" →
      aget st.sessions id = some n →
      (resetServerTs st (some id) true).2 = ResetResult.okReset ∧
      aget (resetServerTs st (some id) true).1.sessions id = none ∧
      aget (resetServerTs st (some id) true).1.qrCodes id = none ∧
      id ∉ (resetServerTs st (some id) true).1.authDirs) ∧
    (∀ (st : ServerState) (id : String) (endOk : Bool), id ≠ "" →
      aget st.sessions id = none →
      (resetServerTs st (some id) endOk).2 = ResetResult.okReset ∧
      (resetServerTs st (some id) endOk).1.sessions = st.sessions ∧
      (resetServerTs st (some id) endOk).1.qrCodes = st.qrCodes ∧
      id ∉ (resetServerTs st (some id) endOk).1.authDirs) := by
  refine ⟨?_, ?_, ?_, ?_⟩
  · intro st id n endOk hid hA
    cases endOk <;>
      refine ⟨?_, ?_, ?_, ?_⟩ <;>
        simp [resetP001, hid, hA, aget_adel, not_mem_filterNe]
  · intro st id endOk hid hA
    refine ⟨?_, ?_, ?_, ?_⟩ <;>
      simp [resetP001, hid, hA, not_mem_filterNe]
  · intro st id n hid hA
    refine ⟨?_, ?_, ?_, ?_⟩ <;>
      simp [resetServerTs, hid, hA, aget_adel, not_mem_filterNe]
  · intro st id endOk hid hA
    refine ⟨?_, ?_, ?_, ?_⟩ <;>
      simp [resetServerTs, hid, hA, not_mem_filterNe]

/-- Witness for C6 (amended) at concrete states: part_001 reset succeeds
for `"b1"` even with a throwing termination, `src/server.ts` reset succeeds
for `"b1"` with a non-throwing termination, and for the never-seen `"zz"`. -/
theorem c6_witness :
    (resetP001 stA (some "b1") false).2 = ResetResult.okReset ∧
    (resetServerTs stA (some "b1") true).2 = ResetResult.okReset ∧
    (resetServerTs stA (some "zz") false).2 = ResetResult.okReset :=
  ⟨(c6_amended.1 stA "b1" 0 false (by decide) rfl).1,
   (c6_amended.2.2.1 stA "b1" 0 (by decide) rfl).1,
   (c6_amended.2.2.2 stA "zz" false (by decide) rfl).1⟩

/-- C7 (counterexample): `src/server.ts` has no empty-content guard in its
`messages.upsert` handler: for an eligible inbound event with no
extractable text body (`msgNoText`), a webhook POST is made whose
`msgContent` field is absent — an empty-payload webhook call. -/
theorem c7_counterexample :
    handleUpsertServerTs (some "h") "b1" "notify" [msgNoText] okAll
      = Except.ok [⟨"b1", some "5", none⟩] := by
  rfl

/-- C7 (amended): the part_000 inspector dispatcher drops events with no
extractable (truthy) text body before dispatch — every webhook call it
makes carries a non-empty `msgContent` — but the `src/server.ts` dispatcher
POSTs the payload for every eligible event even when no text body could be
extracted. -/
theorem c7_amended :
    (∀ (wurl : Option String) (iid evType : String) (msgs : List WaMessage)
      (ok : Nat → Bool) (calls : List WebhookCall),
      handleUpsertP000 wurl iid evType msgs ok = Except.ok calls →
      ∀ c ∈ calls, jsTruthy c.content = true) ∧
    (∀ (wurl : Option String) (iid : String) (ok : Nat → Bool) (m : WaMessage),
      m.key.fromMe = false → jsTruthy wurl = true →
      handleUpsertServerTs wurl iid "notify" [m] ok
        = Except.ok [⟨iid, some (splitHead m.key.remoteJid '@'), msgContent m⟩]) := by
  constructor
  · intro wurl iid evType msgs ok calls hok c hc
    unfold handleUpsertP000 at hok
    by_cases hev : evType = "notify"
    · rw [if_pos hev, upsertP000_eq] at hok
      have : calls = attemptedP000 wurl iid msgs :=
        (Option.some_injective _ (congrArg Except.toOption hok)).symm
      rw [this] at hc
      exact mem_attemptedP000 hc
    · rw [if_neg hev] at hok
      have : calls = [] :=
        (Option.some_injective _ (congrArg Except.toOption hok)).symm
      rw [this] at hc
      simp at hc
  · intro wurl iid ok m hm hw
    unfold handleUpsertServerTs
    rw [if_pos rfl, upsertServerTs_eq]
    have he : eligMsg wurl m = true := by simp [eligMsg, hm, hw]
    simp [attemptedServerTs, he, callServerTs]

/-- Witness for C7 (amended): on the concrete run of the part_000
dispatcher over `[msgText]`, the single emitted call has truthy content,
and `src/server.ts` dispatches the same message as built. -/
theorem c7_witness :
    jsTruthy (⟨"b1", some "5", some "oi"⟩ : WebhookCall).content = true ∧
    handleUpsertServerTs (some "h") "b1" "notify" [msgText] okAll
      = Except.ok [⟨"b1", some "5", some "oi"⟩] :=
  ⟨c7_amended.1 (some "h") "b1" "notify" [msgText] okAll
     [⟨"b1", some "5", some "oi"⟩] rfl ⟨"b1", some "5", some "oi"⟩
     (List.mem_cons_self _ _),
   c7_amended.2 (some "h") "b1" okAll msgText rfl rfl⟩

/-- C8: webhook delivery failures are swallowed inside the
`messages.upsert` handlers of `src/server.ts` and `src/unnamed/part_001`:
for any delivery oracle the handler returns normally (never an error), and
its entire output — including every later dispatch for the same or another
event — is independent of which deliveries failed. -/
theorem c8_failures_isolated :
    ∀ (wurl : Option String) (iid evType : String) (msgs : List WaMessage)
      (ok1 ok2 : Nat → Bool),
      (∃ calls, handleUpsertServerTs wurl iid evType msgs ok1
        = Except.ok calls) ∧
      handleUpsertServerTs wurl iid evType msgs ok1
        = handleUpsertServerTs wurl iid evType msgs ok2 ∧
      (∃ calls, handleUpsertP001 wurl iid evType msgs ok1 = Except.ok calls) ∧
      handleUpsertP001 wurl iid evType msgs ok1
        = handleUpsertP001 wurl iid evType msgs ok2 := by
  intro wurl iid evType msgs ok1 ok2
  unfold handleUpsertServerTs handleUpsertP001
  by_cases hev : evType = "notify"
  · simp only [hev, if_pos rfl]
    rw [upsertServerTs_eq wurl iid ok1, upsertServerTs_eq wurl iid ok2,
      upsertP001_eq wurl iid ok1, upsertP001_eq wurl iid ok2]
    exact ⟨⟨_, rfl⟩, rfl, ⟨_, rfl⟩, rfl⟩
  · simp only [if_neg hev]
    exact ⟨⟨_, rfl⟩, trivial, ⟨_, rfl⟩, trivial⟩

/-- C9: the sender identity placed in the webhook payload by the part_000
inspector dispatcher equals the claim's description (`senderSpec`): the
co-located participant identifier's part before `'@'` when the primary
address is an `@lid` form and a participant identifier is present, and the
primary address's part before `'@'` otherwise; consequently the sender
fields of all attempted webhook calls are the spec-described ones. -/
theorem c9_sender_normalized :
    (∀ k : MsgKey, normalizedSender k = senderSpec k) ∧
    (∀ (wurl : Option String) (iid : String) (msgs : List WaMessage),
      (attemptedP000 wurl iid msgs).map (fun c => c.sender)
        = (msgs.filter
            (fun m => eligMsg wurl m && jsTruthy (msgContent m))).map
            (fun m => some (senderSpec m.key))) := by
  constructor
  · exact normalizedSender_eq
  · intro wurl iid msgs
    unfold attemptedP000
    exact map_sender_attempted iid _

/-- C10: an inbound message marked as sent by the connected account itself
(`fromMe = true`) is never dispatched, whatever the webhook configuration:
prepending it to any event batch leaves the output of the
`messages.upsert` handlers of `src/server.ts` and `src/unnamed/part_001`
unchanged. -/
theorem c10_own_messages_not_dispatched :
    ∀ (wurl : Option String) (iid evType : String) (ok : Nat → Bool)
      (m : WaMessage) (msgs : List WaMessage),
      m.key.fromMe = true →
      handleUpsertServerTs wurl iid evType (m :: msgs) ok
        = handleUpsertServerTs wurl iid evType msgs ok ∧
      handleUpsertP001 wurl iid evType (m :: msgs) ok
        = handleUpsertP001 wurl iid evType msgs ok := by
  intro wurl iid evType ok m msgs hm
  have he : eligMsg wurl m = false := by simp [eligMsg, hm]
  unfold handleUpsertServerTs handleUpsertP001
  by_cases hev : evType = "notify"
  · simp only [hev, if_pos rfl]
    rw [upsertServerTs_eq, upsertServerTs_eq, upsertP001_eq, upsertP001_eq]
    constructor <;>
      simp [attemptedServerTs, attemptedP001, List.filter_cons, he]
  · simp only [if_neg hev]
    exact ⟨trivial, trivial⟩

/-- Witness for C10: a concrete `fromMe` message prepended to the empty
batch produces exactly the output of the empty batch, with a webhook
endpoint configured. -/
theorem c10_witness :
    handleUpsertServerTs (some "h") "b1" "notify" [mFromMe] okAll
      = handleUpsertServerTs (some "h") "b1" "notify" [] okAll ∧
    handleUpsertP001 (some "h") "b1" "notify" [mFromMe] okAll
      = handleUpsertP001 (some "h") "b1" "notify" [] okAll :=
  c10_own_messages_not_dispatched (some "h") "b1" "notify" okAll mFromMe [] rfl

end BarberBot
